import Mathlib

/-!
Shallow embedding of `main.py` (Flask character-chat backend).

The parts embedded are the ones the specification's claims are about:

* `update_status` (main.py lines 73-160): the per-user progression update
  against the 育成ステータス sheet.  The sheet is modelled as a list of
  rows; `gspread.get_all_records` values are modelled by `Cell`, which is
  either a string cell or an integer cell (gspread auto-converts numeric
  cells to Python ints).
* the `/chat` handler (main.py lines 166-223), with the external
  collaborators (Gemini reply generation, Google-Sheets connection) passed
  in as parameters, and its observable effects (reply text, whether the
  generator was invoked, the log sheet, the status sheet) returned as data.

Dates are handled exactly as the Python source handles them: as strings
compared for (in)equality — the source never parses a date and never
computes a day gap.  A separate, clearly named `spec`-side date model
(`specParseDate`, `specGapDays`) formalises the specification's notion of
`gap_days` for comparison with the code.
-/

/-- A spreadsheet cell value as returned by `gspread.get_all_records`:
either a string or an int (numeric cells arrive as Python ints). -/
inductive Cell where
  | str (s : String)
  | int (n : Int)
deriving DecidableEq, Repr

/-- Python `str(x)` on a cell value. -/
def pyStr : Cell → String
  | Cell.str s => s
  | Cell.int n => toString n

/-- The whitespace characters recognised by Python `str.split()` /
`str.strip()` (ASCII whitespace plus the common Unicode spaces, including
the ideographic space U+3000 that full-width Japanese input produces). -/
def isPySpace (c : Char) : Bool :=
  c = ' ' || c = '\t' || c = '\n' || c = '\r' || c = '\x0b' || c = '\x0c' ||
  c = '\u0085' || c = '\u00a0' || c = '\u1680' ||
  ('\u2000' ≤ c && c ≤ '\u200a') ||
  c = '\u2028' || c = '\u2029' || c = '\u202f' || c = '\u205f' || c = '\u3000'

/-- Python `s.strip()`: remove leading and trailing whitespace. -/
def pyStrip (s : String) : String :=
  String.mk (((s.data.dropWhile isPySpace).reverse.dropWhile isPySpace).reverse)

/-- Python `"".join(s.split())` (main.py line 176): remove every
whitespace character from the string. -/
def removeWs (s : String) : String :=
  String.mk (s.data.filter (fun c => !(isPySpace c)))

/-- Value of a list of decimal digit characters. -/
def digitsVal (l : List Char) : Nat :=
  l.foldl (fun acc c => 10 * acc + (c.toNat - 48)) 0

/-- Parse a non-empty all-digit character list as a natural number. -/
def charsToNat? (l : List Char) : Option Nat :=
  if !l.isEmpty && l.all Char.isDigit then some (digitsVal l) else none

/-- Python `int(s)` on a string: optional sign, decimal digits, surrounding
whitespace allowed; `none` models a raised `ValueError`. -/
def pyParseInt (s : String) : Option Int :=
  match (pyStrip s).data with
  | '-' :: rest => (charsToNat? rest).map (fun n => -(n : Int))
  | '+' :: rest => (charsToNat? rest).map Int.ofNat
  | l => (charsToNat? l).map Int.ofNat

/-- The `try: int(...) except ValueError: 0` pattern of main.py lines
94-112: an int cell is returned as is, a string cell is parsed, and a
parse failure is recovered as 0. -/
def toIntOr0 : Cell → Int
  | Cell.int n => n
  | Cell.str s => (pyParseInt s).getD 0

/-- One row of the 育成ステータス sheet.  Column layout (main.py line 144):
A uid, B char_key, C 現在ステージ, D 最終グチ日, E グチ連続日数,
F 総グチ数, G GP, H 最終GP付与日. -/
structure Row where
  uid : Cell
  char_key : Cell
  current_stage : Cell
  last_grumble_date : Cell
  consecutive_grumble_days : Cell
  total_grumble_count : Cell
  gp : Cell
  last_gp_date : Cell
deriving DecidableEq, Repr

/-- The uid comparison of main.py line 89:
`str(row.get("uid", "")).strip() == str(uid).strip()`. -/
def matchesUid (uid : String) (r : Row) : Bool :=
  pyStrip (pyStr r.uid) == pyStrip uid

/-- The in-place update applied to a found row, main.py lines 94-133.
`current_gp`, `consecutive_grumble_days`, `total_grumble_count` are read
with the `int(...)`-with-default-0 pattern; then, when the stored
最終グチ日 differs from today's date string, GP (column 7), 最終グチ日
(column 4), グチ連続日数 (column 5) and 最終GP付与日 (column 8) are
written; 総グチ数 (column 6) is written unconditionally. -/
def updateRow (today : String) (r : Row) : Row :=
  let current_gp := toIntOr0 r.gp
  let consecutive_grumble_days := toIntOr0 r.consecutive_grumble_days
  let total_grumble_count := toIntOr0 r.total_grumble_count
  let r1 :=
    if r.last_grumble_date ≠ Cell.str today then
      { r with
        gp := Cell.int (current_gp + 10),
        last_grumble_date := Cell.str today,
        consecutive_grumble_days := Cell.int (consecutive_grumble_days + 1),
        last_gp_date := Cell.str today }
    else r
  { r1 with total_grumble_count := Cell.int (total_grumble_count + 1) }

/-- Whether the GP-award branch (main.py line 117) is taken for a found
row: the stored 最終グチ日 differs from today's date string.  The Python
function does not return this flag; it is the observable "points were
newly awarded" fact the specification's `advance` contract reports. -/
def pointsAwarded (today : String) (r : Row) : Bool :=
  decide (r.last_grumble_date ≠ Cell.str today)

/-- The row appended for a new user, main.py lines 145-155. -/
def newRow (uid char_key today : String) : Row :=
  { uid := Cell.str uid,
    char_key := Cell.str char_key,
    current_stage := Cell.str "初期",
    last_grumble_date := Cell.str today,
    consecutive_grumble_days := Cell.int 1,
    total_grumble_count := Cell.int 1,
    gp := Cell.int 10,
    last_gp_date := Cell.str today }

/-- `update_status` (main.py lines 73-160) on the status sheet: scan the
rows in order; the first row whose uid matches is updated in place and
the scan stops (the Python `return` on line 138); if no row matches, a
new-user row is appended.  Returns the updated sheet together with the
derived points-awarded flag (true for a new user, whose GP is set to the
award amount 10). -/
def update_status (today uid char_key : String) : List Row → List Row × Bool
  | [] => ([newRow uid char_key today], true)
  | r :: rest =>
      if matchesUid uid r then
        (updateRow today r :: rest, pointsAwarded today r)
      else
        let p := update_status today uid char_key rest
        (r :: p.1, p.2)

/-! ## Spec-side date model

The specification speaks of `gap_days = today - existing.last_interaction_date`
in whole calendar days.  The Python source never computes this; the
following definitions formalise the specification's words so that claims
about gaps can be stated and compared with the code's behaviour. -/

/-- Modelled from the spec: Gregorian leap year. -/
def specIsLeap (y : Nat) : Bool :=
  (y % 4 = 0 && y % 100 ≠ 0) || y % 400 = 0

/-- Modelled from the spec: days in a month of a given year. -/
def specDaysInMonth (y m : Nat) : Nat :=
  if m = 2 then (if specIsLeap y then 29 else 28)
  else if m = 4 || m = 6 || m = 9 || m = 11 then 30
  else 31

/-- Split a character list on a separator character (like `str.split(sep)`
of Python with an explicit separator: empty pieces are kept). -/
def splitOnChar (sep : Char) : List Char → List (List Char)
  | [] => [[]]
  | c :: cs =>
      match splitOnChar sep cs with
      | [] => [[c]]
      | h :: t => if c = sep then [] :: h :: t else (c :: h) :: t

/-- Modelled from the spec: parse a `YYYY-MM-DD` date string into
(year, month, day), validating the ranges; `none` for malformed dates. -/
def specParseDate (s : String) : Option (Nat × Nat × Nat) :=
  match (splitOnChar '-' s.data).map charsToNat? with
  | [some y, some m, some d] =>
      if 1 ≤ m && m ≤ 12 && 1 ≤ d && d ≤ specDaysInMonth y m && 1 ≤ y then
        some (y, m, d)
      else none
  | _ => none

/-- Modelled from the spec: day-of-year of a (year, month, day). -/
def specDayOfYear (y m d : Nat) : Nat :=
  d + (List.range (m - 1)).foldr (fun i acc => specDaysInMonth y (i + 1) + acc) 0

/-- Modelled from the spec: a day ordinal (days since a fixed epoch) so
that differences of ordinals are whole-calendar-day gaps. -/
def specDateOrdinal (y m d : Nat) : Nat :=
  365 * (y - 1) + (y - 1) / 4 - (y - 1) / 100 + (y - 1) / 400 + specDayOfYear y m d

/-- Modelled from the spec: `gap_days = today - stored` in whole calendar
days; `none` when either date string is malformed. -/
def specGapDays (stored today : String) : Option Int :=
  match specParseDate stored, specParseDate today with
  | some (ys, ms, ds), some (yt, mt, dt) =>
      some ((specDateOrdinal yt mt dt : Int) - (specDateOrdinal ys ms ds : Int))
  | _, _ => none

/-! ## The `/chat` handler -/

/-- One stage entry of a character in `characters.py` (not under `src/`):
the `"system"` prompt text is the only field the handler reads. -/
structure StageData where
  system : String
deriving DecidableEq, Repr

/-- One character entry of the persona catalog `characters` imported from
`characters.py` (not under `src/`): a dict from stage name to stage data,
modelled as an association list. -/
structure CharData where
  stages : List (String × StageData)
deriving DecidableEq, Repr

/-- `char_data["stages"].get(stage, char_data["stages"]["初期"])["system"]`
(main.py line 194): the requested stage's system prompt, falling back to
the 初期 stage; `none` models the `KeyError` raised when 初期 is also
absent (caught by the handler's outer `except`). -/
def stageSystem (cd : CharData) (stage : String) : Option String :=
  match List.lookup stage cd.stages with
  | some sd => some sd.system
  | none => (List.lookup "初期" cd.stages).map StageData.system

/-- The fixed control instructions appended to the system prompt
(main.py lines 198-201). -/
def control_instructions : String :=
  "返信には、動作の描写（例: 「私は頷きながら」「彼は微笑んで」など）を含めないでください。\n" ++
  "簡潔さを保ちつつも、キャラクターの個性を損なわないように、適切な長さで返信してください。"

/-- The JSON body of a `/chat` request; `none` models an absent field so
that the `data.get(key, default)` calls of main.py lines 170-173 are
explicit. -/
structure ChatRequest where
  user_text : Option String
  char : Option String
  uid : Option String
  stage : Option String
deriving DecidableEq, Repr

/-- The observable outcome of one `/chat` request: the JSON reply text,
whether the reply generator (Gemini) was invoked, and the resulting log
sheet and status sheet. -/
structure ChatResult where
  reply : String
  generator_called : Bool
  log : List (List String)
  status : List Row
deriving DecidableEq, Repr

/-- The `/chat` handler (main.py lines 166-223).  External collaborators
are parameters: `characters` is the persona catalog; `gen` is the Gemini
round trip (system prompt and user text to reply text, `none` modelling a
raised exception, which the outer `except` turns into the fixed error
reply); `sheets_ok` is whether `get_gsheet` returned live worksheets;
`timestamp` and `today` are the two `datetime.now()` strftime results.
The log append and the status update happen only when the sheets are
available, after the reply has been generated. -/
def chat (characters : List (String × CharData))
    (gen : String → String → Option String)
    (timestamp today : String) (sheets_ok : Bool)
    (log : List (List String)) (status : List Row)
    (data : ChatRequest) : ChatResult :=
  let char_key := data.char.getD "hikage"
  let uid := data.uid.getD "unknown"
  let stage := data.stage.getD "初期"
  let user_text := removeWs (data.user_text.getD "")
  if user_text = "" then
    { reply := "何か入力してください。", generator_called := false,
      log := log, status := status }
  else
    match List.lookup char_key characters with
    | none =>
        { reply := "キャラが見つからないよ。", generator_called := false,
          log := log, status := status }
    | some cd =>
        match stageSystem cd stage with
        | none =>
            { reply := "エラーが発生したよ。ログを確認してね。",
              generator_called := false, log := log, status := status }
        | some base =>
            match gen (base ++ "\n\n" ++ control_instructions) user_text with
            | none =>
                { reply := "エラーが発生したよ。ログを確認してね。",
                  generator_called := true, log := log, status := status }
            | some raw =>
                let reply := pyStrip raw
                if sheets_ok then
                  { reply := reply, generator_called := true,
                    log := log ++ [[timestamp, uid, char_key, user_text, reply]],
                    status := (update_status today uid char_key status).1 }
                else
                  { reply := reply, generator_called := true,
                    log := log, status := status }

/-! ## Helper lemmas about `update_status` -/

/-- On a changed day (stored 最終グチ日 differs from today) the found row
is rewritten field by field as the source's four dated `update_cell`
writes plus the unconditional 総グチ数 write. -/
theorem updateRow_of_ne {today : String} {r : Row}
    (h : r.last_grumble_date ≠ Cell.str today) :
    updateRow today r =
      { r with
        gp := Cell.int (toIntOr0 r.gp + 10),
        last_grumble_date := Cell.str today,
        consecutive_grumble_days := Cell.int (toIntOr0 r.consecutive_grumble_days + 1),
        last_gp_date := Cell.str today,
        total_grumble_count := Cell.int (toIntOr0 r.total_grumble_count + 1) } := by
  simp [updateRow, h]

/-- On a same-day interaction only the 総グチ数 cell is written. -/
theorem updateRow_of_eq {today : String} {r : Row}
    (h : r.last_grumble_date = Cell.str today) :
    updateRow today r =
      { r with total_grumble_count := Cell.int (toIntOr0 r.total_grumble_count + 1) } := by
  simp [updateRow, h]

/-- The uid cell of a row is never written by the in-place update. -/
theorem updateRow_uid (today : String) (r : Row) :
    (updateRow today r).uid = r.uid := by
  by_cases h : r.last_grumble_date = Cell.str today <;> simp [updateRow, h]

/-- 総グチ数 is written to old value plus one in both branches. -/
theorem updateRow_total (today : String) (r : Row) :
    (updateRow today r).total_grumble_count
      = Cell.int (toIntOr0 r.total_grumble_count + 1) := by
  by_cases h : r.last_grumble_date = Cell.str today <;> simp [updateRow, h]

/-- When the first matching row of the sheet is `r` (every row before it
fails the uid comparison), `update_status` rewrites exactly that row in
place and reports the award flag of its branch. -/
theorem update_status_first_match (today uid ck : String)
    (pre : List Row) (r : Row) (rest : List Row)
    (hpre : ∀ x ∈ pre, matchesUid uid x = false)
    (hr : matchesUid uid r = true) :
    update_status today uid ck (pre ++ r :: rest)
      = (pre ++ updateRow today r :: rest, pointsAwarded today r) := by
  induction pre with
  | nil => simp [update_status, hr]
  | cons a as ih =>
      have ha : matchesUid uid a = false := hpre a (List.mem_cons_self a as)
      have ih2 := ih (fun x hx => hpre x (List.mem_cons_of_mem a hx))
      simp [update_status, ha, ih2]

/-- When no row of the sheet matches the uid, `update_status` appends the
new-user row and reports the award flag true. -/
theorem update_status_no_match (today uid ck : String) (sheet : List Row)
    (h : ∀ x ∈ sheet, matchesUid uid x = false) :
    update_status today uid ck sheet
      = (sheet ++ [newRow uid ck today], true) := by
  induction sheet with
  | nil => simp [update_status]
  | cons a as ih =>
      have ha : matchesUid uid a = false := h a (List.mem_cons_self a as)
      have ih2 := ih (fun x hx => h x (List.mem_cons_of_mem a hx))
      simp [update_status, ha, ih2]

/-- Every sheet either has no row matching the uid, or decomposes around
its first matching row. -/
theorem exists_first_match (uid : String) (sheet : List Row) :
    (∀ x ∈ sheet, matchesUid uid x = false) ∨
    ∃ pre r rest, sheet = pre ++ r :: rest ∧
      (∀ x ∈ pre, matchesUid uid x = false) ∧ matchesUid uid r = true := by
  induction sheet with
  | nil => exact Or.inl (by simp)
  | cons a as ih =>
      by_cases h : matchesUid uid a = true
      · exact Or.inr ⟨[], a, as, rfl, by simp, h⟩
      · have ha : matchesUid uid a = false := by
          cases hb : matchesUid uid a
          · rfl
          · exact absurd hb h
        rcases ih with hall | ⟨pre, r, rest, heq, hpre, hr⟩
        · refine Or.inl ?_
          intro x hx
          rcases List.mem_cons.mp hx with hx | hx
          · exact hx ▸ ha
          · exact hall x hx
        · refine Or.inr ⟨a :: pre, r, rest, by simp [heq], ?_, hr⟩
          intro x hx
          rcases List.mem_cons.mp hx with hx | hx
          · exact hx ▸ ha
          · exact hpre x hx

/-- The key under which a row's uid cell is compared (main.py line 89):
`str(...).strip()` of the cell. -/
def uidKey (c : Cell) : String := pyStrip (pyStr c)

/-- Number of rows of the sheet whose uid cell compares equal to `k`. -/
def countUid (k : String) (sheet : List Row) : Nat :=
  (sheet.filter (fun r => uidKey r.uid == k)).length

theorem countUid_append (k : String) (l1 l2 : List Row) :
    countUid k (l1 ++ l2) = countUid k l1 + countUid k l2 := by
  simp [countUid, List.filter_append]

theorem countUid_singleton (k : String) (r : Row) :
    countUid k [r] = if uidKey r.uid == k then 1 else 0 := by
  by_cases h : (uidKey r.uid == k) = true <;> simp [countUid, List.filter, h]

theorem countUid_le_length (k : String) (l : List Row) :
    countUid k l ≤ l.length := by
  simpa [countUid] using List.length_filter_le (fun r => uidKey r.uid == k) l

theorem countUid_eq_zero (k : String) (l : List Row)
    (h : ∀ x ∈ l, (uidKey x.uid == k) = false) : countUid k l = 0 := by
  induction l with
  | nil => rfl
  | cons a as ih =>
      have ha := h a (List.mem_cons_self a as)
      have : countUid k as = 0 := ih (fun x hx => h x (List.mem_cons_of_mem a hx))
      simp [countUid, List.filter, ha] at this ⊢
      exact this

/-- `matchesUid` is the uid-key comparison against the stripped request uid. -/
theorem matchesUid_eq (uid : String) (r : Row) :
    matchesUid uid r = (uidKey r.uid == pyStrip uid) := rfl

/-- A date string has gap 0 to itself (when it parses at all). -/
theorem specGapDays_self (t : String) :
    specGapDays t t = none ∨ specGapDays t t = some 0 := by
  rcases h : specParseDate t with _ | ⟨y, m, d⟩
  · exact Or.inl (by simp [specGapDays, h])
  · exact Or.inr (by simp [specGapDays, h])

/-! ## Claims -/

/-- C1 counterexample: a present record whose stored date is four whole
days before today (gap 4, not 1, and not same-day).  The claim says the
update sets streak_days to 1; the code sets it to the stored streak plus
one (3 becomes 4), because main.py line 120 increments unconditionally
whenever the date strings differ and no reset exists anywhere. -/
theorem c1_counterexample :
    specGapDays "2024-01-01" "2024-01-05" = some 4 ∧
    Cell.str "2024-01-01" ≠ Cell.str "2024-01-05" ∧
    (update_status "2024-01-05" "u1" "hikage"
        [⟨Cell.str "u1", Cell.str "hikage", Cell.str "初期", Cell.str "2024-01-01",
          Cell.int 3, Cell.int 7, Cell.int 50, Cell.str "2024-01-01"⟩]).1
      = [⟨Cell.str "u1", Cell.str "hikage", Cell.str "初期", Cell.str "2024-01-05",
          Cell.int 4, Cell.int 8, Cell.int 60, Cell.str "2024-01-05"⟩] ∧
    Cell.int 4 ≠ Cell.int 1 :=
  ⟨rfl, by decide, rfl, by decide⟩

/-- C1 (amended): for every present record whose stored 最終グチ日 differs
from today (as strings — any gap, larger than one day, negative, or
malformed), the update sets streak_days to the stored streak (recovered as
an integer, 0 on parse failure) plus one; it never resets to 1. -/
theorem c1_streak_increments_on_any_date_change
    (today uid ck : String) (pre : List Row) (r : Row) (rest : List Row)
    (hpre : ∀ x ∈ pre, matchesUid uid x = false)
    (hr : matchesUid uid r = true)
    (hdate : r.last_grumble_date ≠ Cell.str today) :
    ∃ r2, (update_status today uid ck (pre ++ r :: rest)).1 = pre ++ r2 :: rest ∧
      r2.consecutive_grumble_days
        = Cell.int (toIntOr0 r.consecutive_grumble_days + 1) ∧
      r2.last_grumble_date = Cell.str today := by
  refine ⟨updateRow today r, ?_, ?_, ?_⟩
  · rw [update_status_first_match today uid ck pre r rest hpre hr]
  · rw [updateRow_of_ne hdate]
  · rw [updateRow_of_ne hdate]

theorem c1_streak_increments_witness :
    (∀ x ∈ ([] : List Row), matchesUid "u1" x = false) ∧
    matchesUid "u1"
      ⟨Cell.str "u1", Cell.str "hikage", Cell.str "初期", Cell.str "2024-01-01",
        Cell.int 3, Cell.int 7, Cell.int 50, Cell.str "2024-01-01"⟩ = true ∧
    (⟨Cell.str "u1", Cell.str "hikage", Cell.str "初期", Cell.str "2024-01-01",
        Cell.int 3, Cell.int 7, Cell.int 50, Cell.str "2024-01-01"⟩ : Row).last_grumble_date
      ≠ Cell.str "2024-01-05" ∧
    ∃ r2, (update_status "2024-01-05" "u1" "hikage"
        ([] ++ ⟨Cell.str "u1", Cell.str "hikage", Cell.str "初期", Cell.str "2024-01-01",
          Cell.int 3, Cell.int 7, Cell.int 50, Cell.str "2024-01-01"⟩ :: [])).1
      = [] ++ r2 :: [] ∧
      r2.consecutive_grumble_days = Cell.int (toIntOr0 (Cell.int 3) + 1) ∧
      r2.last_grumble_date = Cell.str "2024-01-05" :=
  ⟨fun x hx => absurd hx (List.not_mem_nil x), rfl, by decide,
    c1_streak_increments_on_any_date_change "2024-01-05" "u1" "hikage" [] _ []
      (fun x hx => absurd hx (List.not_mem_nil x)) rfl (by decide)⟩

/-- C2 counterexample: a present record whose stored 最終GP付与日 (the
last_points_date of the claim, column H) is yesterday — so the claim says
points must be awarded — but whose 最終グチ日 (column D) already equals
today: main.py line 117 gates the award on column D only, so no points are
awarded and the flag is false. -/
theorem c2_counterexample :
    Cell.str "2024-01-01" ≠ Cell.str "2024-01-02" ∧
    update_status "2024-01-02" "u1" "hikage"
        [⟨Cell.str "u1", Cell.str "hikage", Cell.str "初期", Cell.str "2024-01-02",
          Cell.int 1, Cell.int 1, Cell.int 50, Cell.str "2024-01-01"⟩]
      = ([⟨Cell.str "u1", Cell.str "hikage", Cell.str "初期", Cell.str "2024-01-02",
          Cell.int 1, Cell.int 2, Cell.int 50, Cell.str "2024-01-01"⟩], false) :=
  ⟨by decide, rfl⟩

/-- C2 (amended): for every present record, points are incremented by
exactly 10 if and only if the stored 最終グチ日 (the last interaction
date, not the last points date) differs from today; in that case both
最終グチ日 and 最終GP付与日 are set to today and the award flag is true,
otherwise points and 最終GP付与日 are unchanged and the flag is false.
Since the code always writes the two date columns together, they coincide
on every record this code created, and points still increase at most once
per calendar date. -/
theorem c2_points_gated_by_interaction_date
    (today uid ck : String) (pre : List Row) (r : Row) (rest : List Row)
    (hpre : ∀ x ∈ pre, matchesUid uid x = false)
    (hr : matchesUid uid r = true) :
    ∃ r2, (update_status today uid ck (pre ++ r :: rest)).1 = pre ++ r2 :: rest ∧
      (update_status today uid ck (pre ++ r :: rest)).2 = pointsAwarded today r ∧
      (r.last_grumble_date ≠ Cell.str today →
        r2.gp = Cell.int (toIntOr0 r.gp + 10) ∧
        r2.last_gp_date = Cell.str today ∧
        pointsAwarded today r = true) ∧
      (r.last_grumble_date = Cell.str today →
        r2.gp = r.gp ∧ r2.last_gp_date = r.last_gp_date ∧
        pointsAwarded today r = false) := by
  refine ⟨updateRow today r, ?_, ?_, ?_, ?_⟩
  · rw [update_status_first_match today uid ck pre r rest hpre hr]
  · rw [update_status_first_match today uid ck pre r rest hpre hr]
  · intro h
    rw [updateRow_of_ne h]
    exact ⟨rfl, rfl, by simp [pointsAwarded, h]⟩
  · intro h
    rw [updateRow_of_eq h]
    exact ⟨rfl, rfl, by simp [pointsAwarded, h]⟩

theorem c2_points_gated_witness :
    (∀ x ∈ ([] : List Row), matchesUid "u1" x = false) ∧
    matchesUid "u1"
      ⟨Cell.str "u1", Cell.str "hikage", Cell.str "初期", Cell.str "2024-01-01",
        Cell.int 3, Cell.int 7, Cell.int 50, Cell.str "2024-01-01"⟩ = true ∧
    ∃ r2, (update_status "2024-01-02" "u1" "hikage"
        ([] ++ ⟨Cell.str "u1", Cell.str "hikage", Cell.str "初期", Cell.str "2024-01-01",
          Cell.int 3, Cell.int 7, Cell.int 50, Cell.str "2024-01-01"⟩ :: [])).1
      = [] ++ r2 :: [] ∧
      (update_status "2024-01-02" "u1" "hikage"
        ([] ++ ⟨Cell.str "u1", Cell.str "hikage", Cell.str "初期", Cell.str "2024-01-01",
          Cell.int 3, Cell.int 7, Cell.int 50, Cell.str "2024-01-01"⟩ :: [])).2
        = pointsAwarded "2024-01-02"
            ⟨Cell.str "u1", Cell.str "hikage", Cell.str "初期", Cell.str "2024-01-01",
              Cell.int 3, Cell.int 7, Cell.int 50, Cell.str "2024-01-01"⟩ ∧
      ((⟨Cell.str "u1", Cell.str "hikage", Cell.str "初期", Cell.str "2024-01-01",
          Cell.int 3, Cell.int 7, Cell.int 50, Cell.str "2024-01-01"⟩ : Row).last_grumble_date
          ≠ Cell.str "2024-01-02" →
        r2.gp = Cell.int (toIntOr0 (Cell.int 50) + 10) ∧
        r2.last_gp_date = Cell.str "2024-01-02" ∧
        pointsAwarded "2024-01-02"
          ⟨Cell.str "u1", Cell.str "hikage", Cell.str "初期", Cell.str "2024-01-01",
            Cell.int 3, Cell.int 7, Cell.int 50, Cell.str "2024-01-01"⟩ = true) ∧
      ((⟨Cell.str "u1", Cell.str "hikage", Cell.str "初期", Cell.str "2024-01-01",
          Cell.int 3, Cell.int 7, Cell.int 50, Cell.str "2024-01-01"⟩ : Row).last_grumble_date
          = Cell.str "2024-01-02" →
        r2.gp = Cell.int 50 ∧ r2.last_gp_date = Cell.str "2024-01-01" ∧
        pointsAwarded "2024-01-02"
          ⟨Cell.str "u1", Cell.str "hikage", Cell.str "初期", Cell.str "2024-01-01",
            Cell.int 3, Cell.int 7, Cell.int 50, Cell.str "2024-01-01"⟩ = false) :=
  ⟨fun x hx => absurd hx (List.not_mem_nil x), rfl,
    c2_points_gated_by_interaction_date "2024-01-02" "u1" "hikage" [] _ []
      (fun x hx => absurd hx (List.not_mem_nil x)) rfl⟩

/-- C3: when no stored row matches the user identifier, the update appends
a record with 現在ステージ = 初期, 最終グチ日 = today, グチ連続日数 = 1,
総グチ数 = 1, GP = 10, 最終GP付与日 = today, and the derived
points-awarded flag is true. -/
theorem c3_new_user_record (today uid ck : String) (sheet : List Row)
    (h : ∀ x ∈ sheet, matchesUid uid x = false) :
    update_status today uid ck sheet
      = (sheet ++ [⟨Cell.str uid, Cell.str ck, Cell.str "初期", Cell.str today,
          Cell.int 1, Cell.int 1, Cell.int 10, Cell.str today⟩], true) := by
  rw [update_status_no_match today uid ck sheet h]
  rfl

theorem c3_new_user_record_witness :
    (∀ x ∈ ([] : List Row), matchesUid "u9" x = false) ∧
    update_status "2024-01-01" "u9" "hikage" []
      = ([⟨Cell.str "u9", Cell.str "hikage", Cell.str "初期", Cell.str "2024-01-01",
          Cell.int 1, Cell.int 1, Cell.int 10, Cell.str "2024-01-01"⟩], true) :=
  ⟨fun x hx => absurd hx (List.not_mem_nil x),
    c3_new_user_record "2024-01-01" "u9" "hikage" []
      (fun x hx => absurd hx (List.not_mem_nil x))⟩

/-- C4: for every present record whose stored 最終グチ日 equals today, the
update leaves streak_days (グチ連続日数) and 最終グチ日 unchanged and
increments 総グチ数 by exactly one (from its recovered integer value). -/
theorem c4_same_day_update
    (today uid ck : String) (pre : List Row) (r : Row) (rest : List Row)
    (hpre : ∀ x ∈ pre, matchesUid uid x = false)
    (hr : matchesUid uid r = true)
    (hdate : r.last_grumble_date = Cell.str today) :
    ∃ r2, (update_status today uid ck (pre ++ r :: rest)).1 = pre ++ r2 :: rest ∧
      r2.consecutive_grumble_days = r.consecutive_grumble_days ∧
      r2.last_grumble_date = r.last_grumble_date ∧
      r2.total_grumble_count = Cell.int (toIntOr0 r.total_grumble_count + 1) := by
  refine ⟨updateRow today r, ?_, ?_, ?_, ?_⟩
  · rw [update_status_first_match today uid ck pre r rest hpre hr]
  · rw [updateRow_of_eq hdate]
  · rw [updateRow_of_eq hdate]
  · exact updateRow_total today r

theorem c4_same_day_update_witness :
    (∀ x ∈ ([] : List Row), matchesUid "u1" x = false) ∧
    matchesUid "u1"
      ⟨Cell.str "u1", Cell.str "hikage", Cell.str "初期", Cell.str "2024-01-01",
        Cell.int 3, Cell.int 7, Cell.int 50, Cell.str "2024-01-01"⟩ = true ∧
    (⟨Cell.str "u1", Cell.str "hikage", Cell.str "初期", Cell.str "2024-01-01",
        Cell.int 3, Cell.int 7, Cell.int 50, Cell.str "2024-01-01"⟩ : Row).last_grumble_date
      = Cell.str "2024-01-01" ∧
    ∃ r2, (update_status "2024-01-01" "u1" "hikage"
        ([] ++ ⟨Cell.str "u1", Cell.str "hikage", Cell.str "初期", Cell.str "2024-01-01",
          Cell.int 3, Cell.int 7, Cell.int 50, Cell.str "2024-01-01"⟩ :: [])).1
      = [] ++ r2 :: [] ∧
      r2.consecutive_grumble_days = Cell.int 3 ∧
      r2.last_grumble_date = Cell.str "2024-01-01" ∧
      r2.total_grumble_count = Cell.int (toIntOr0 (Cell.int 7) + 1) :=
  ⟨fun x hx => absurd hx (List.not_mem_nil x), rfl, rfl,
    c4_same_day_update "2024-01-01" "u1" "hikage" [] _ []
      (fun x hx => absurd hx (List.not_mem_nil x)) rfl rfl⟩

/-- C5 counterexample: a present record whose stored 最終グチ日 is the
unparseable string "日付なし".  The claim says a malformed stored date is
treated as gap 0 with no streak change; the code only compares strings,
finds it different from today, and changes the streak from 5 to 6 (and
awards GP). -/
theorem c5_counterexample :
    specParseDate "日付なし" = none ∧
    (update_status "2024-01-02" "u1" "hikage"
        [⟨Cell.str "u1", Cell.str "hikage", Cell.str "初期", Cell.str "日付なし",
          Cell.int 5, Cell.int 9, Cell.int 20, Cell.str "2024-01-01"⟩]).1
      = [⟨Cell.str "u1", Cell.str "hikage", Cell.str "初期", Cell.str "2024-01-02",
          Cell.int 6, Cell.int 10, Cell.int 30, Cell.str "2024-01-02"⟩] ∧
    Cell.int 6 ≠ Cell.int 5 :=
  ⟨rfl, rfl, by decide⟩

/-- C5 (amended): a stored 最終グチ日 that is malformed (unparseable while
today is a well-formed date) or strictly later than today is simply a
string different from today, so the changed-day branch runs: streak_days
is set to the recovered stored streak plus one (0 plus one for a
non-numeric stored streak), GP is awarded, and both date cells are set to
today; no exception escapes (the update is a total function) and
non-numeric counters are recovered as integers via `toIntOr0`. -/
theorem c5_malformed_or_future_date_changes_streak
    (today uid ck s : String) (pre : List Row) (r : Row) (rest : List Row)
    (hpre : ∀ x ∈ pre, matchesUid uid x = false)
    (hr : matchesUid uid r = true)
    (hs : r.last_grumble_date = Cell.str s)
    (hbad : (specParseDate s = none ∧ specParseDate today ≠ none) ∨
            (∃ g, specGapDays s today = some g ∧ g < 0)) :
    ∃ r2, (update_status today uid ck (pre ++ r :: rest)).1 = pre ++ r2 :: rest ∧
      r2.consecutive_grumble_days
        = Cell.int (toIntOr0 r.consecutive_grumble_days + 1) ∧
      r2.last_grumble_date = Cell.str today ∧
      r2.gp = Cell.int (toIntOr0 r.gp + 10) := by
  have hne : s ≠ today := by
    intro heq
    subst heq
    rcases hbad with ⟨hnone, hsome⟩ | ⟨g, hg, hglt⟩
    · exact hsome hnone
    · rcases specGapDays_self s with h0 | h0 <;> rw [h0] at hg
      · exact Option.noConfusion hg
      · have : g = 0 := by
          have := Option.some.inj hg
          omega
        omega
  have hdate : r.last_grumble_date ≠ Cell.str today := by
    rw [hs]
    intro hc
    exact hne (Cell.str.inj hc)
  refine ⟨updateRow today r, ?_, ?_, ?_, ?_⟩
  · rw [update_status_first_match today uid ck pre r rest hpre hr]
  · rw [updateRow_of_ne hdate]
  · rw [updateRow_of_ne hdate]
  · rw [updateRow_of_ne hdate]

theorem c5_malformed_witness :
    (∀ x ∈ ([] : List Row), matchesUid "u1" x = false) ∧
    matchesUid "u1"
      ⟨Cell.str "u1", Cell.str "hikage", Cell.str "初期", Cell.str "日付なし",
        Cell.str "ごじゅう", Cell.int 9, Cell.str "えぬえー", Cell.str "2024-01-01"⟩ = true ∧
    (⟨Cell.str "u1", Cell.str "hikage", Cell.str "初期", Cell.str "日付なし",
        Cell.str "ごじゅう", Cell.int 9, Cell.str "えぬえー", Cell.str "2024-01-01"⟩ : Row).last_grumble_date
      = Cell.str "日付なし" ∧
    (specParseDate "日付なし" = none ∧ specParseDate "2024-01-02" ≠ none) ∧
    ∃ r2, (update_status "2024-01-02" "u1" "hikage"
        ([] ++ ⟨Cell.str "u1", Cell.str "hikage", Cell.str "初期", Cell.str "日付なし",
          Cell.str "ごじゅう", Cell.int 9, Cell.str "えぬえー", Cell.str "2024-01-01"⟩ :: [])).1
      = [] ++ r2 :: [] ∧
      r2.consecutive_grumble_days = Cell.int (toIntOr0 (Cell.str "ごじゅう") + 1) ∧
      r2.last_grumble_date = Cell.str "2024-01-02" ∧
      r2.gp = Cell.int (toIntOr0 (Cell.str "えぬえー") + 10) :=
  ⟨fun x hx => absurd hx (List.not_mem_nil x), rfl, rfl, ⟨rfl, by decide⟩,
    c5_malformed_or_future_date_changes_streak "2024-01-02" "u1" "hikage" "日付なし" [] _ []
      (fun x hx => absurd hx (List.not_mem_nil x)) rfl rfl (Or.inl ⟨rfl, by decide⟩)⟩

/-- C6: for every present record, 総グチ数 is incremented by exactly one
per call (from its recovered integer value), whatever the relation between
today and any stored date, and the sheet keeps its length. -/
theorem c6_total_always_increments
    (today uid ck : String) (pre : List Row) (r : Row) (rest : List Row)
    (hpre : ∀ x ∈ pre, matchesUid uid x = false)
    (hr : matchesUid uid r = true) :
    ∃ r2, (update_status today uid ck (pre ++ r :: rest)).1 = pre ++ r2 :: rest ∧
      r2.total_grumble_count = Cell.int (toIntOr0 r.total_grumble_count + 1) := by
  refine ⟨updateRow today r, ?_, updateRow_total today r⟩
  rw [update_status_first_match today uid ck pre r rest hpre hr]

theorem c6_total_always_increments_witness :
    (∀ x ∈ ([] : List Row), matchesUid "u1" x = false) ∧
    matchesUid "u1"
      ⟨Cell.str "u1", Cell.str "hikage", Cell.str "初期", Cell.str "2024-01-01",
        Cell.int 3, Cell.int 7, Cell.int 50, Cell.str "2024-01-01"⟩ = true ∧
    ∃ r2, (update_status "2024-03-09" "u1" "hikage"
        ([] ++ ⟨Cell.str "u1", Cell.str "hikage", Cell.str "初期", Cell.str "2024-01-01",
          Cell.int 3, Cell.int 7, Cell.int 50, Cell.str "2024-01-01"⟩ :: [])).1
      = [] ++ r2 :: [] ∧
      r2.total_grumble_count = Cell.int (toIntOr0 (Cell.int 7) + 1) :=
  ⟨fun x hx => absurd hx (List.not_mem_nil x), rfl,
    c6_total_always_increments "2024-03-09" "u1" "hikage" [] _ []
      (fun x hx => absurd hx (List.not_mem_nil x)) rfl⟩

/-- C7: if the sheet holds at most one row per uid key, then one call to
`update_status` (a) keeps that invariant, (b) never appends when some row
matches the request uid (it rewrites the first matching row in place,
keeping the length), and (c) appends exactly the one new-user row when no
row matches. -/
theorem c7_at_most_one_record_per_uid (today uid ck : String) (sheet : List Row)
    (hinv : ∀ k, countUid k sheet ≤ 1) :
    (∀ k, countUid k (update_status today uid ck sheet).1 ≤ 1) ∧
    ((∃ r ∈ sheet, matchesUid uid r = true) →
      (update_status today uid ck sheet).1.length = sheet.length) ∧
    ((∀ r ∈ sheet, matchesUid uid r = false) →
      (update_status today uid ck sheet).1 = sheet ++ [newRow uid ck today]) := by
  rcases exists_first_match uid sheet with hall | ⟨pre, r, rest, heq, hpre, hr⟩
  · have hres := update_status_no_match today uid ck sheet hall
    refine ⟨?_, ?_, ?_⟩
    · intro k
      rw [hres, countUid_append, countUid_singleton]
      by_cases hk : (uidKey (newRow uid ck today).uid == k) = true
      · have hkey : k = pyStrip uid := by
          have := eq_of_beq hk
          simpa [newRow, uidKey, pyStr] using this.symm
        have hzero : countUid k sheet = 0 := by
          apply countUid_eq_zero
          intro x hx
          rw [hkey]
          exact (matchesUid_eq uid x) ▸ hall x hx
        rw [hzero, hk]
        simp
      · have hk0 : (uidKey (newRow uid ck today).uid == k) = false := by
          cases hb : (uidKey (newRow uid ck today).uid == k)
          · rfl
          · exact absurd hb hk
        rw [hk0]
        simpa using hinv k
    · rintro ⟨x, hx, hmx⟩
      rw [hall x hx] at hmx
      exact Bool.noConfusion hmx
    · intro _
      rw [hres]
  · have hres := update_status_first_match today uid ck pre r rest hpre hr
    subst heq
    refine ⟨?_, ?_, ?_⟩
    · intro k
      rw [hres]
      have hcnt : countUid k (pre ++ updateRow today r :: rest)
          = countUid k (pre ++ r :: rest) := by
        have h1 : (pre ++ updateRow today r :: rest)
            = pre ++ ([updateRow today r] ++ rest) := by simp
        have h2 : (pre ++ r :: rest) = pre ++ ([r] ++ rest) := by simp
        rw [h1, h2, countUid_append, countUid_append, countUid_append, countUid_append,
          countUid_singleton, countUid_singleton, updateRow_uid]
      rw [hcnt]
      exact hinv k
    · intro _
      rw [hres]
      simp
    · intro hnone
      have := hnone r (by simp)
      rw [hr] at this
      exact Bool.noConfusion this

theorem c7_at_most_one_record_witness :
    (∀ k, countUid k
      [(⟨Cell.str "u1", Cell.str "hikage", Cell.str "初期", Cell.str "2024-01-01",
          Cell.int 3, Cell.int 7, Cell.int 50, Cell.str "2024-01-01"⟩ : Row)] ≤ 1) ∧
    ((∀ k, countUid k (update_status "2024-01-02" "u1" "hikage"
        [⟨Cell.str "u1", Cell.str "hikage", Cell.str "初期", Cell.str "2024-01-01",
          Cell.int 3, Cell.int 7, Cell.int 50, Cell.str "2024-01-01"⟩]).1 ≤ 1) ∧
     ((∃ r ∈ [(⟨Cell.str "u1", Cell.str "hikage", Cell.str "初期", Cell.str "2024-01-01",
          Cell.int 3, Cell.int 7, Cell.int 50, Cell.str "2024-01-01"⟩ : Row)],
        matchesUid "u1" r = true) →
      (update_status "2024-01-02" "u1" "hikage"
        [⟨Cell.str "u1", Cell.str "hikage", Cell.str "初期", Cell.str "2024-01-01",
          Cell.int 3, Cell.int 7, Cell.int 50, Cell.str "2024-01-01"⟩]).1.length
        = [(⟨Cell.str "u1", Cell.str "hikage", Cell.str "初期", Cell.str "2024-01-01",
            Cell.int 3, Cell.int 7, Cell.int 50, Cell.str "2024-01-01"⟩ : Row)].length) ∧
     ((∀ r ∈ [(⟨Cell.str "u1", Cell.str "hikage", Cell.str "初期", Cell.str "2024-01-01",
          Cell.int 3, Cell.int 7, Cell.int 50, Cell.str "2024-01-01"⟩ : Row)],
        matchesUid "u1" r = false) →
      (update_status "2024-01-02" "u1" "hikage"
        [⟨Cell.str "u1", Cell.str "hikage", Cell.str "初期", Cell.str "2024-01-01",
          Cell.int 3, Cell.int 7, Cell.int 50, Cell.str "2024-01-01"⟩]).1
        = [⟨Cell.str "u1", Cell.str "hikage", Cell.str "初期", Cell.str "2024-01-01",
            Cell.int 3, Cell.int 7, Cell.int 50, Cell.str "2024-01-01"⟩]
            ++ [newRow "u1" "hikage" "2024-01-02"])) :=
  ⟨fun k => countUid_le_length k _,
    c7_at_most_one_record_per_uid "2024-01-02" "u1" "hikage" _
      (fun k => countUid_le_length k _)⟩

/-- C8: a chat request whose user text is empty after whitespace removal
is answered with the prompt-to-retry reply before any collaborator call:
the reply generator is not invoked, the log sheet is unchanged and the
status sheet is unchanged. -/
theorem c8_empty_text_rejected_early
    (characters : List (String × CharData)) (gen : String → String → Option String)
    (timestamp today : String) (sheets_ok : Bool)
    (log : List (List String)) (status : List Row) (data : ChatRequest)
    (h : removeWs (data.user_text.getD "") = "") :
    chat characters gen timestamp today sheets_ok log status data
      = { reply := "何か入力してください。", generator_called := false,
          log := log, status := status } := by
  simp [chat, h]

theorem c8_empty_text_rejected_witness :
    removeWs ((⟨some " 　\n", some "hikage", some "u1", none⟩ : ChatRequest).user_text.getD "") = "" ∧
    chat [] (fun _ _ => none) "ts" "2024-01-01" true []
        [⟨Cell.str "u1", Cell.str "hikage", Cell.str "初期", Cell.str "2024-01-01",
          Cell.int 3, Cell.int 7, Cell.int 50, Cell.str "2024-01-01"⟩]
        ⟨some " 　\n", some "hikage", some "u1", none⟩
      = { reply := "何か入力してください。", generator_called := false,
          log := [],
          status := [⟨Cell.str "u1", Cell.str "hikage", Cell.str "初期", Cell.str "2024-01-01",
            Cell.int 3, Cell.int 7, Cell.int 50, Cell.str "2024-01-01"⟩] } :=
  ⟨rfl, c8_empty_text_rejected_early [] (fun _ _ => none) "ts" "2024-01-01" true []
      [⟨Cell.str "u1", Cell.str "hikage", Cell.str "初期", Cell.str "2024-01-01",
        Cell.int 3, Cell.int 7, Cell.int 50, Cell.str "2024-01-01"⟩]
      ⟨some " 　\n", some "hikage", some "u1", none⟩ rfl⟩

/-- C9 counterexample: a request whose character key "nanashi" is not in
the persona catalog but whose user text is whitespace-only.  The claim
says every unknown-character request gets the fixed "character not found"
reply; the empty-text check runs first (main.py line 185 before line 188),
so this request gets the prompt-to-retry reply instead. -/
theorem c9_counterexample :
    List.lookup "nanashi" ([] : List (String × CharData)) = none ∧
    chat [] (fun _ _ => none) "ts" "2024-01-01" true [] []
        ⟨some "　", some "nanashi", some "u1", none⟩
      = { reply := "何か入力してください。", generator_called := false,
          log := [], status := [] } ∧
    "何か入力してください。" ≠ "キャラが見つからないよ。" :=
  ⟨rfl, rfl, by decide⟩

/-- C9 (amended): a chat request whose user text is non-empty after
whitespace removal and whose character key is not in the persona catalog
is answered with the fixed "character not found" reply, the reply
generator is not invoked, and the log and status sheets are unchanged. -/
theorem c9_unknown_character_no_mutation
    (characters : List (String × CharData)) (gen : String → String → Option String)
    (timestamp today : String) (sheets_ok : Bool)
    (log : List (List String)) (status : List Row) (data : ChatRequest)
    (h1 : removeWs (data.user_text.getD "") ≠ "")
    (h2 : List.lookup (data.char.getD "hikage") characters = none) :
    chat characters gen timestamp today sheets_ok log status data
      = { reply := "キャラが見つからないよ。", generator_called := false,
          log := log, status := status } := by
  simp [chat, h1, h2]

theorem c9_unknown_character_witness :
    removeWs ((⟨some "こんにちは", some "nanashi", some "u1", none⟩ : ChatRequest).user_text.getD "") ≠ "" ∧
    List.lookup ((⟨some "こんにちは", some "nanashi", some "u1", none⟩ : ChatRequest).char.getD "hikage")
        ([("hikage", ⟨[("初期", ⟨"prompt"⟩)]⟩)] : List (String × CharData)) = none ∧
    chat [("hikage", ⟨[("初期", ⟨"prompt"⟩)]⟩)] (fun _ _ => some "reply") "ts" "2024-01-01" true [] []
        ⟨some "こんにちは", some "nanashi", some "u1", none⟩
      = { reply := "キャラが見つからないよ。", generator_called := false,
          log := [], status := [] } :=
  ⟨by decide, rfl,
    c9_unknown_character_no_mutation [("hikage", ⟨[("初期", ⟨"prompt"⟩)]⟩)]
      (fun _ _ => some "reply") "ts" "2024-01-01" true [] []
      ⟨some "こんにちは", some "nanashi", some "u1", none⟩ (by decide) rfl⟩

/-- C10: every chat request that omits the user-identifier field is
processed exactly as if it carried uid "unknown" (the `data.get` default
of main.py line 172), whatever its character-key field holds; in every
branch the status sheet either stays unchanged or is the result of the
progression update keyed "unknown" with the request's character key
(defaulted to "hikage") — identifier-less requests are never rejected,
they read and mutate the shared record keyed "unknown".  When the
character-key field is also omitted it defaults to "hikage"
(main.py line 171). -/
theorem c10_missing_fields_use_defaults
    (characters : List (String × CharData)) (gen : String → String → Option String)
    (timestamp today : String) (sheets_ok : Bool)
    (log : List (List String)) (status : List Row) (data : ChatRequest)
    (hu : data.uid = none) :
    chat characters gen timestamp today sheets_ok log status data
      = chat characters gen timestamp today sheets_ok log status
          { data with uid := some "unknown" } ∧
    ((chat characters gen timestamp today sheets_ok log status data).status = status ∨
     (chat characters gen timestamp today sheets_ok log status data).status
       = (update_status today "unknown" (data.char.getD "hikage") status).1) ∧
    (data.char = none →
      chat characters gen timestamp today sheets_ok log status data
        = chat characters gen timestamp today sheets_ok log status
            { data with uid := some "unknown", char := some "hikage" }) := by
  obtain ⟨ut, c, u, st⟩ := data
  simp only at hu
  subst hu
  refine ⟨rfl, ?_, ?_⟩
  · by_cases he : removeWs (ut.getD "") = ""
    · left
      simp [chat, he]
    · rcases hl : List.lookup (c.getD "hikage") characters with _ | cd
      · left
        simp [chat, he, hl]
      · rcases hs : stageSystem cd (st.getD "初期") with _ | base
        · left
          simp [chat, he, hl, hs]
        · rcases hg : gen (base ++ "\n\n" ++ control_instructions) (removeWs (ut.getD "")) with _ | raw
          · left
            simp [chat, he, hl, hs, hg]
          · cases sheets_ok
            · left
              simp [chat, he, hl, hs, hg]
            · right
              simp [chat, he, hl, hs, hg]
  · intro hc
    simp only at hc
    subst hc
    rfl

theorem c10_missing_fields_witness :
    (⟨some "やあ", some "neko", none, none⟩ : ChatRequest).uid = none ∧
    (chat [("neko", ⟨[("初期", ⟨"prompt"⟩)]⟩)] (fun _ _ => some "ok") "ts" "2024-01-01" true [] []
        ⟨some "やあ", some "neko", none, none⟩
      = chat [("neko", ⟨[("初期", ⟨"prompt"⟩)]⟩)] (fun _ _ => some "ok") "ts" "2024-01-01" true [] []
          { (⟨some "やあ", some "neko", none, none⟩ : ChatRequest) with uid := some "unknown" } ∧
     ((chat [("neko", ⟨[("初期", ⟨"prompt"⟩)]⟩)] (fun _ _ => some "ok") "ts" "2024-01-01" true [] []
          ⟨some "やあ", some "neko", none, none⟩).status = [] ∨
      (chat [("neko", ⟨[("初期", ⟨"prompt"⟩)]⟩)] (fun _ _ => some "ok") "ts" "2024-01-01" true [] []
          ⟨some "やあ", some "neko", none, none⟩).status
        = (update_status "2024-01-01" "unknown"
            ((⟨some "やあ", some "neko", none, none⟩ : ChatRequest).char.getD "hikage") []).1) ∧
     ((⟨some "やあ", some "neko", none, none⟩ : ChatRequest).char = none →
       chat [("neko", ⟨[("初期", ⟨"prompt"⟩)]⟩)] (fun _ _ => some "ok") "ts" "2024-01-01" true [] []
          ⟨some "やあ", some "neko", none, none⟩
         = chat [("neko", ⟨[("初期", ⟨"prompt"⟩)]⟩)] (fun _ _ => some "ok") "ts" "2024-01-01" true [] []
            { (⟨some "やあ", some "neko", none, none⟩ : ChatRequest) with
              uid := some "unknown", char := some "hikage" })) :=
  ⟨rfl,
    c10_missing_fields_use_defaults [("neko", ⟨[("初期", ⟨"prompt"⟩)]⟩)]
      (fun _ _ => some "ok") "ts" "2024-01-01" true [] []
      ⟨some "やあ", some "neko", none, none⟩ rfl⟩
